import Mathlib

/-!
Verification development for the LLM integration layer of the rentify
backend (`backend/llm_services/services/`): the file-based response cache
(`cache.py`), the provider clients with retry/backoff (`llm_client.py`),
the optimized DeepSeek client with conversation contexts
(`optimized_deepseek.py`), the routing manager (`llm_manager.py`), and the
JSON repair helpers (`fix_json_format`, `reconstruct_json_from_claude`,
`format_property_data` in `llm_client.py`).

Shallow embedding conventions:
* machine strings are Lean `String`s (character-level algorithms work on
  `List Char` obtained via `String.data`);
* floating-point temperatures are modelled as `Rat` (the code only
  compares them against the literal `0.2`);
* the filesystem (cache directory, context directory) is modelled as a
  total function from the pre-hash key material to an optional stored
  value.  The Python code names each file by the MD5 hex digest of the
  key material; distinct key material is identified with distinct files
  (the digest is kept abstract where a claim depends on it);
* network I/O is modelled by an outcome function `Nat → …` giving the
  result of the n-th HTTP attempt of a call, and each modelled operation
  additionally returns the list of observable events (HTTP attempts,
  backoff sleeps, cache reads/writes, context saves) it performed, in
  order.
-/

set_option autoImplicit false
set_option maxRecDepth 100000

namespace Rentify

/-- A generation response as assembled by the provider clients: the raw
`content` string, the reported `model`, and the optional
`stop_reason`/`finish_reason` (token-usage bookkeeping is elided as no
claim depends on it). -/
structure Resp where
  content : String
  model : String
  stopReason : Option String
deriving DecidableEq

/-- Python `s or default` for an optional string argument (`model = model
or self.DEFAULT_MODEL`): `None` and the empty string are falsy. -/
def pyOrStr (s : Option String) (d : String) : String :=
  match s with
  | none => d
  | some s => if s = "" then d else s

/-- Python `str.lower()`, per-character (the provider names compared here
are ASCII). -/
def pyLower (s : String) : String := ⟨s.data.map Char.toLower⟩

/-- Python truthiness of an optional string (`if context_id:` style
checks): `None` and `""` are falsy. -/
def pyTruthy : Option String → Bool
  | none => false
  | some s => s ≠ ""

/-- Observable events emitted by the modelled operations, in program
order: an HTTP POST attempt to a provider, a `time.sleep` of the given
whole number of seconds, a local-cache lookup/store under the given
pre-hash key material, and a conversation-context save. -/
inductive Ev where
  | httpCall (provider : String)
  | sleep (secs : Nat)
  | cacheGet (key : String)
  | cacheSet (key : String)
  | ctxSave (contextId : String)
deriving DecidableEq

def Ev.isSleep : Ev → Bool
  | .sleep _ => true
  | _ => false

def Ev.isHttp : Ev → Bool
  | .httpCall _ => true
  | _ => false

def Ev.isCacheEv : Ev → Bool
  | .cacheGet _ => true
  | .cacheSet _ => true
  | _ => false

/-- The on-disk response cache, as a map from pre-hash key material to the
stored response.  `cache.py` stores one JSON file per key, named by the
MD5 hex digest of the key material; distinct key material is identified
with distinct entries. -/
def CacheMap : Type := String → Option Resp

/-- `LLMResponseCache.set` / `set_advanced`: serialize the response and
write it to the key's file, overwriting any prior content. -/
def cacheStore (cache : CacheMap) (key : String) (r : Resp) : CacheMap :=
  fun k => if k = key then some r else cache k

namespace LLMResponseCache

/-- One cache file on disk, for the purposes of `LLMResponseCache.get`:
its modification time and the payload `json.load` would produce (`none`
when the file is unreadable or corrupt). -/
structure CFile where
  mtime : Int
  payload : Option Resp
deriving DecidableEq

/-- The constructor default `max_age_seconds: int = 86400 * 7` of
`LLMResponseCache.__init__` (cache.py line 20). -/
def maxAgeDefault : Int := 86400 * 7

/-- `LLMResponseCache.get` (cache.py lines 54-85), for a single key: given
the current time, the max age, and the state of the key's file, return
the result of the read together with the state of the file afterwards
(`none` = file absent / deleted).

* no file → miss;
* `time.time() - cache_file.stat().st_mtime > max_age_seconds` → unlink
  the file and miss;
* file unreadable/corrupt (`json.load` raises) → unlink the file and
  miss;
* otherwise → return the payload, file untouched. -/
def get (maxAge now : Int) (file : Option CFile) : Option Resp × Option CFile :=
  match file with
  | none => (none, none)
  | some f =>
    if now - f.mtime > maxAge then
      (none, none)
    else
      match f.payload with
      | none => (none, none)
      | some p => (some p, some f)

end LLMResponseCache

/-- C4: for every cache key, `LLMResponseCache.get` returns a miss and
deletes the underlying file both when the file's age (now minus mtime)
exceeds `max_age_seconds` (whose constructor default is 7 days) and when
the file exists but cannot be read or parsed; a cached payload is
returned (with the file left in place) only for an existing, fresh,
readable entry. -/
theorem C4_cache_get_staleness_and_selfheal (maxAge now : Int) (file : Option LLMResponseCache.CFile) :
    LLMResponseCache.maxAgeDefault = 7 * 24 * 60 * 60
    ∧ (∀ f, file = some f → now - f.mtime > maxAge →
        LLMResponseCache.get maxAge now file = (none, none))
    ∧ (∀ f, file = some f → f.payload = none →
        LLMResponseCache.get maxAge now file = (none, none))
    ∧ (∀ p after, LLMResponseCache.get maxAge now file = (some p, after) →
        ∃ f, file = some f ∧ now - f.mtime ≤ maxAge ∧ f.payload = some p ∧ after = some f) := by
  refine ⟨rfl, ?_, ?_, ?_⟩
  · rintro f rfl hage
    simp [LLMResponseCache.get, hage]
  · rintro f rfl hbad
    by_cases hage : now - f.mtime > maxAge <;> simp [LLMResponseCache.get, hage, hbad]
  · intro p after h
    cases hf : file with
    | none =>
      rw [hf] at h
      simp [LLMResponseCache.get] at h
    | some f =>
      rw [hf] at h
      refine ⟨f, rfl, ?_⟩
      by_cases hage : now - f.mtime > maxAge
      · simp [LLMResponseCache.get, hage] at h
      · cases hp : f.payload with
        | none => simp [LLMResponseCache.get, hage, hp] at h
        | some q =>
          simp [LLMResponseCache.get, hage, hp] at h
          obtain ⟨rfl, rfl⟩ := h
          exact ⟨le_of_not_lt hage, rfl, rfl⟩

/-- Witness for C4 at concrete inputs: a corrupt file aged 50 with
`maxAge = 100` at `now = 60` is deleted and missed, and a fresh readable
file is returned untouched. -/
theorem C4_cache_get_staleness_and_selfheal_witness :
    LLMResponseCache.get 100 60 (some ⟨10, none⟩) = (none, none)
    ∧ LLMResponseCache.get 100 260 (some ⟨10, some ⟨"c", "m", none⟩⟩) = (none, none) := by
  constructor
  · exact (C4_cache_get_staleness_and_selfheal 100 60 (some ⟨10, none⟩)).2.2.1 ⟨10, none⟩ rfl rfl
  · exact (C4_cache_get_staleness_and_selfheal 100 260
      (some ⟨10, some ⟨"c", "m", none⟩⟩)).2.1 ⟨10, some ⟨"c", "m", none⟩⟩ rfl (by decide)

/-- Named characters used by the character-level algorithms below, kept
as definitions so scanners can branch on them uniformly. -/
def quoteChar : Char := Char.ofNat 34

def aposChar : Char := Char.ofNat 39

def braceLChar : Char := Char.ofNat 123

def braceRChar : Char := Char.ofNat 125

/-- Outcome of one HTTP POST to the DeepSeek chat-completion endpoint, as
seen by the retry loop of `DeepSeekClient.generate_response`: either a
`requests.exceptions.RequestException` (connection failure, timeout, or a
non-2xx status surfaced by `raise_for_status`) carrying its message, or
the successfully decoded response. -/
inductive DSOut where
  | fail (msg : String)
  | ok (r : Resp)
deriving DecidableEq

namespace DeepSeekClient

def DEFAULT_MODEL : String := "deepseek-chat"

/-- The `for attempt in range(max_retries)` retry loop of
`DeepSeekClient.generate_response` (llm_client.py lines 217-257):
`max_retries = 3`, `retry_delay = 2`; on a `RequestException`, sleep
`retry_delay` seconds and double it — except on the last attempt, which
re-raises; on success, write the cache when `writeCache` holds and return
the response.  `left` is the number of remaining loop iterations; the
`left = 0` base case is the unreachable `RuntimeError` after the loop
(line 257). -/
def retryLoop (beh : Nat → DSOut) (writeCache : Bool) (key : String)
    (cache : CacheMap) (attempt delay left : Nat) :
    Except String Resp × CacheMap × List Ev :=
  match left with
  | 0 => (.error "Failed to get response from DeepSeek API after multiple attempts", cache, [])
  | left + 1 =>
    match beh attempt with
    | .ok r =>
      if writeCache then
        (.ok r, cacheStore cache key r, [.httpCall "deepseek", .cacheSet key])
      else
        (.ok r, cache, [.httpCall "deepseek"])
    | .fail e =>
      if left = 0 then
        (.error e, cache, [.httpCall "deepseek"])
      else
        let rest := retryLoop beh writeCache key cache (attempt + 1) (delay * 2) left
        (rest.1, rest.2.1, .httpCall "deepseek" :: .sleep delay :: rest.2.2)

/-- `DeepSeekClient.generate_response` (llm_client.py lines 161-257) on
the production path (`debug_mode = False`): default the model (`model =
model or self.DEFAULT_MODEL`), consult the local cache when `use_cache
and temperature < 0.2` (key material `f"{system}|{user}|{model}"` per
`LLMResponseCache.get_cache_key`), then run the retry loop, which also
writes the cache on success under the same condition. -/
def generate_response (systemPrompt userPrompt : String) (modelArg : Option String)
    (temperature : Rat) (useCache : Bool) (beh : Nat → DSOut) (cache : CacheMap) :
    Except String Resp × CacheMap × List Ev :=
  let model := pyOrStr modelArg DEFAULT_MODEL
  let key := systemPrompt ++ "|" ++ userPrompt ++ "|" ++ model
  if useCache ∧ temperature < mkRat 1 5 then
    match cache key with
    | some r => (.ok r, cache, [.cacheGet key])
    | none =>
      let run := retryLoop beh true key cache 0 2 3
      (run.1, run.2.1, .cacheGet key :: run.2.2)
  else
    retryLoop beh false key cache 0 2 3

end DeepSeekClient

/-- C5: a DeepSeek generate call whose remote request fails on the first
two attempts and succeeds on the third returns the successful response,
performs exactly two backoff sleeps of `base_delay = 2` and
`base_delay * multiplier = 4` seconds, and makes `max_attempts = 3` HTTP
attempts in total. -/
theorem C5_retry_backoff (sp up : String) (modelArg : Option String) (temperature : Rat)
    (useCache : Bool) (beh : Nat → DSOut) (cache : CacheMap) (e0 e1 : String) (r : Resp)
    (hmiss : cache (sp ++ "|" ++ up ++ "|" ++ pyOrStr modelArg DeepSeekClient.DEFAULT_MODEL) = none)
    (h0 : beh 0 = .fail e0) (h1 : beh 1 = .fail e1) (h2 : beh 2 = .ok r) :
    (DeepSeekClient.generate_response sp up modelArg temperature useCache beh cache).1 = .ok r
    ∧ (DeepSeekClient.generate_response sp up modelArg temperature useCache beh cache).2.2.filter
        Ev.isSleep = [.sleep 2, .sleep 4]
    ∧ ((DeepSeekClient.generate_response sp up modelArg temperature useCache beh cache).2.2.filter
        Ev.isHttp).length = 3 := by
  unfold DeepSeekClient.generate_response
  by_cases hc : useCache ∧ temperature < mkRat 1 5
  · simp only [if_pos hc, hmiss]
    simp [DeepSeekClient.retryLoop, h0, h1, h2, Ev.isSleep, Ev.isHttp, List.filter]
  · simp only [if_neg hc]
    simp [DeepSeekClient.retryLoop, h0, h1, h2, Ev.isSleep, Ev.isHttp, List.filter]

/-- Witness for C5 at a concrete input: failures on attempts 0 and 1, a
success on attempt 2, an empty cache. -/
theorem C5_retry_backoff_witness :
    (DeepSeekClient.generate_response "s" "u" none (mkRat 7 10) true
        (fun n => if n < 2 then .fail "boom" else .ok ⟨"hi", "deepseek-chat", none⟩)
        (fun _ => none)).1 = .ok ⟨"hi", "deepseek-chat", none⟩
    ∧ (DeepSeekClient.generate_response "s" "u" none (mkRat 7 10) true
        (fun n => if n < 2 then .fail "boom" else .ok ⟨"hi", "deepseek-chat", none⟩)
        (fun _ => none)).2.2.filter Ev.isSleep = [.sleep 2, .sleep 4]
    ∧ ((DeepSeekClient.generate_response "s" "u" none (mkRat 7 10) true
        (fun n => if n < 2 then .fail "boom" else .ok ⟨"hi", "deepseek-chat", none⟩)
        (fun _ => none)).2.2.filter Ev.isHttp).length = 3 :=
  C5_retry_backoff "s" "u" none (mkRat 7 10) true _ _ "boom" "boom" ⟨"hi", "deepseek-chat", none⟩
    rfl rfl rfl rfl

/-- Outcome of one HTTP POST to the Claude messages endpoint: a
network-level `RequestException` (timeout / connection failure), or an
HTTP reply carrying its status code, the error detail the client would
extract from a non-200 body, and the decoded success body. -/
inductive ClOut where
  | net (msg : String)
  | reply (status : Nat) (errDetail : String) (body : Resp)
deriving DecidableEq

/-- The structured-output content fix-up of `ClaudeClient.generate_response`
(llm_client.py lines 434-451): if the content starts with `{` but not
with `{"`, re-quote the leading field name using the first `"` found
(`content.find('"')`, applied only when that index exceeds 1); if it does
not start with `{` at all, prepend one. -/
def claudeFixJsonContent (content : List Char) : List Char :=
  match content with
  | c :: rest =>
    if c = braceLChar then
      if rest.head? = some quoteChar then content
      else
        match content.findIdx? (fun x => x = quoteChar) with
        | some i =>
          if 1 < i then
            braceLChar :: quoteChar :: ((content.take i).drop 1 ++ content.drop i)
          else content
        | none => content
    else braceLChar :: content
  | [] => [braceLChar]

namespace ClaudeClient

def DEFAULT_MODEL : String := "claude-3-sonnet-20240229"

/-- The message of the `requests.exceptions.HTTPError` that
`ClaudeClient.generate_response` raises for a non-200 status
(llm_client.py lines 392-413).  Note that this exception is caught by the
loop's own `except RequestException` handler and is only ever logged —
it never escapes the method. -/
def httpErrorMsg (status : Nat) (errDetail : String) : String :=
  if status = 401 then
    "Claude API authentication error (401): Invalid API key or authentication failure"
  else if status = 400 then "Claude API error (400): " ++ errDetail
  else if status = 429 then "Claude API rate limit exceeded (429): Too many requests"
  else if 500 ≤ status then
    "Claude API server error (" ++ toString status ++ "): Service unavailable"
  else "Claude API error (" ++ toString status ++ "): " ++ errDetail

/-- The retry loop of `ClaudeClient.generate_response` (llm_client.py
lines 372-471).  Every caught `RequestException` — including the
`HTTPError` raised for a 401 — takes the same backoff path; unlike the
DeepSeek loop, the handler of the final attempt only logs (no `raise`),
so exhaustion falls through to the generic `RuntimeError` after the loop
(line 471). -/
def retryLoop (beh : Nat → ClOut) (structured writeCache : Bool) (key : String)
    (cache : CacheMap) (attempt delay left : Nat) :
    Except String Resp × CacheMap × List Ev :=
  match left with
  | 0 => (.error "Failed to get response from Claude API after multiple attempts", cache, [])
  | left + 1 =>
    let failPath : Except String Resp × CacheMap × List Ev :=
      if left = 0 then
        (.error "Failed to get response from Claude API after multiple attempts", cache,
          [.httpCall "claude"])
      else
        let rest := retryLoop beh structured writeCache key cache (attempt + 1) (delay * 2) left
        (rest.1, rest.2.1, .httpCall "claude" :: .sleep delay :: rest.2.2)
    match beh attempt with
    | .net _ => failPath
    | .reply status _err body =>
      if status ≠ 200 then failPath
      else
        let r : Resp :=
          { content := if structured then ⟨claudeFixJsonContent body.content.data⟩ else body.content
            model := body.model
            stopReason := body.stopReason }
        if writeCache then
          (.ok r, cacheStore cache key r, [.httpCall "claude", .cacheSet key])
        else
          (.ok r, cache, [.httpCall "claude"])

/-- `ClaudeClient.generate_response` (llm_client.py lines 298-471) on the
production path: default the model, consult the local cache when
`use_cache and temperature < 0.2`, then run the retry loop (which also
writes the cache on success under the same condition). -/
def generate_response (systemPrompt userPrompt : String) (modelArg : Option String)
    (temperature : Rat) (structured useCache : Bool) (beh : Nat → ClOut) (cache : CacheMap) :
    Except String Resp × CacheMap × List Ev :=
  let model := pyOrStr modelArg DEFAULT_MODEL
  let key := systemPrompt ++ "|" ++ userPrompt ++ "|" ++ model
  if useCache ∧ temperature < mkRat 1 5 then
    match cache key with
    | some r => (.ok r, cache, [.cacheGet key])
    | none =>
      let run := retryLoop beh structured true key cache 0 2 3
      (run.1, run.2.1, .cacheGet key :: run.2.2)
  else
    retryLoop beh structured false key cache 0 2 3

end ClaudeClient

/-- C3 counterexample: with every attempt answered by HTTP 401, the
Claude client does NOT surface the authentication error immediately — it
sleeps 2 s and 4 s, makes three HTTP attempts, and finally raises the
generic `RuntimeError`, whose message is not the authentication message.
This refutes "no backoff sleep occurs and no further request attempt is
made after a 401 response". -/
theorem C3_auth_retried_counterexample :
    (ClaudeClient.generate_response "s" "u" none (mkRat 7 10) false false
        (fun _ => .reply 401 "" ⟨"", "claude-3-sonnet-20240229", none⟩)
        (fun _ => none)).2.2.filter Ev.isSleep = [.sleep 2, .sleep 4]
    ∧ ((ClaudeClient.generate_response "s" "u" none (mkRat 7 10) false false
        (fun _ => .reply 401 "" ⟨"", "claude-3-sonnet-20240229", none⟩)
        (fun _ => none)).2.2.filter Ev.isHttp).length = 3
    ∧ (ClaudeClient.generate_response "s" "u" none (mkRat 7 10) false false
        (fun _ => .reply 401 "" ⟨"", "claude-3-sonnet-20240229", none⟩)
        (fun _ => none)).1
      = .error "Failed to get response from Claude API after multiple attempts"
    ∧ "Failed to get response from Claude API after multiple attempts"
      ≠ ClaudeClient.httpErrorMsg 401 "" := by
  refine ⟨?_, ?_, ?_, ?_⟩ <;> first
    | rfl
    | decide

/-- C3 (amended): a 401 raises an `HTTPError` that the generic
`RequestException` handler catches like any other request failure; with a
401 on every attempt, three HTTP attempts are made with backoff sleeps of
2 s and 4 s, and the call ends in the generic `RuntimeError` — the
authentication error is retried, not surfaced immediately. -/
theorem C3_auth_retried_amended (sp up : String) (modelArg : Option String) (temperature : Rat)
    (structured useCache : Bool) (beh : Nat → ClOut) (cache : CacheMap) (d : String) (b : Resp)
    (hmiss : cache (sp ++ "|" ++ up ++ "|" ++ pyOrStr modelArg ClaudeClient.DEFAULT_MODEL) = none)
    (h401 : ∀ n, beh n = .reply 401 d b) :
    (ClaudeClient.generate_response sp up modelArg temperature structured useCache beh cache).1
      = .error "Failed to get response from Claude API after multiple attempts"
    ∧ (ClaudeClient.generate_response sp up modelArg temperature structured useCache
        beh cache).2.2.filter Ev.isSleep = [.sleep 2, .sleep 4]
    ∧ ((ClaudeClient.generate_response sp up modelArg temperature structured useCache
        beh cache).2.2.filter Ev.isHttp).length = 3 := by
  unfold ClaudeClient.generate_response
  by_cases hc : useCache ∧ temperature < mkRat 1 5
  · simp only [if_pos hc, hmiss]
    simp [ClaudeClient.retryLoop, h401, Ev.isSleep, Ev.isHttp, List.filter]
  · simp only [if_neg hc]
    simp [ClaudeClient.retryLoop, h401, Ev.isSleep, Ev.isHttp, List.filter]

/-- Witness for the amended C3 at a concrete input: 401 on every attempt,
empty cache. -/
theorem C3_auth_retried_amended_witness :
    (ClaudeClient.generate_response "sys" "usr" none (mkRat 1 10) true true
        (fun _ => .reply 401 "bad key" ⟨"", "m", none⟩) (fun _ => none)).1
      = .error "Failed to get response from Claude API after multiple attempts"
    ∧ (ClaudeClient.generate_response "sys" "usr" none (mkRat 1 10) true true
        (fun _ => .reply 401 "bad key" ⟨"", "m", none⟩) (fun _ => none)).2.2.filter
        Ev.isSleep = [.sleep 2, .sleep 4]
    ∧ ((ClaudeClient.generate_response "sys" "usr" none (mkRat 1 10) true true
        (fun _ => .reply 401 "bad key" ⟨"", "m", none⟩) (fun _ => none)).2.2.filter
        Ev.isHttp).length = 3 :=
  C3_auth_retried_amended "sys" "usr" none (mkRat 1 10) true true _ _ "bad key" ⟨"", "m", none⟩
    rfl (fun _ => rfl)

/-- Provider availability of the `UnifiedLLMClient` (`has_deepseek` /
`has_claude`: whether each concrete client construction found an API
key). -/
structure UCCfg where
  hasDeepseek : Bool
  hasClaude : Bool
deriving DecidableEq

/-- A Python value as it occurs in the fallback guard of
`UnifiedLLMClient.generate_response` (llm_client.py line 583), where the
string `'deepseek'` is tested for membership in a list-comprehension of
booleans. -/
inductive PyVal where
  | pstr (s : String)
  | pbool (b : Bool)
deriving DecidableEq

/-- Python `==` on such values: a `str` never equals a `bool`. -/
def pyValEq : PyVal → PyVal → Bool
  | .pstr a, .pstr b => a == b
  | .pbool a, .pbool b => a == b
  | _, _ => false

/-- Python `in` on a list of such values. -/
def pyIn (v : PyVal) (l : List PyVal) : Bool := l.any (pyValEq v)

namespace UnifiedLLMClient

/-- `UnifiedLLMClient.generate_response` (llm_client.py lines 510-592) on
the production path (`debug_mode = False`), delegating to the embedded
DeepSeek and Claude clients.  Returns, besides the result / threaded
cache / event trace, the ordered list of provider `generate_response`
invocations made.  The fallback guard after a Claude failure is the
source's `'deepseek' not in [err.startswith('DeepSeek') for err in
errors]` — a string never equals a boolean, so `pyIn` is always `false`
there — and that second DeepSeek call is not wrapped in any `try`, so its
outcome (success or raw exception) is returned as-is. -/
def generate_response (cfg : UCCfg) (sp up : String) (modelArg : Option String)
    (temperature : Rat) (structured useCache : Bool) (providerArg : Option String)
    (preferred : String) (dBeh : Nat → DSOut) (cBeh : Nat → ClOut) (cache : CacheMap) :
    Except String Resp × CacheMap × List Ev × List String :=
  let provider : String :=
    match providerArg with
    | some p => if p = "" then preferred else pyLower p
    | none => preferred
  let finalRaise : List String → CacheMap → List Ev → List String →
      Except String Resp × CacheMap × List Ev × List String :=
    fun errors c evs tried =>
      let msg := if errors = [] then "No LLM providers available"
        else String.intercalate "; " errors
      (.error ("All LLM providers failed: " ++ msg), c, evs, tried)
  let claudeStage : String → List String → CacheMap → List Ev → List String →
      Except String Resp × CacheMap × List Ev × List String :=
    fun prov errors c evs tried =>
      if prov = "claude" ∧ cfg.hasClaude then
        let run := ClaudeClient.generate_response sp up modelArg temperature structured useCache
          cBeh c
        match run.1 with
        | .ok r => (.ok r, run.2.1, evs ++ run.2.2, tried ++ ["claude"])
        | .error e =>
          let errors := errors ++ ["Claude error: " ++ e]
          if cfg.hasDeepseek ∧
              pyIn (.pstr "deepseek")
                (errors.map (fun err => .pbool (err.startsWith "DeepSeek"))) = false then
            let run2 := DeepSeekClient.generate_response sp up modelArg temperature useCache dBeh
              run.2.1
            (run2.1, run2.2.1, evs ++ run.2.2 ++ run2.2.2, tried ++ ["claude", "deepseek"])
          else finalRaise errors run.2.1 (evs ++ run.2.2) (tried ++ ["claude"])
      else finalRaise errors c evs tried
  if provider = "deepseek" ∧ cfg.hasDeepseek then
    let run := DeepSeekClient.generate_response sp up modelArg temperature useCache dBeh cache
    match run.1 with
    | .ok r => (.ok r, run.2.1, run.2.2, ["deepseek"])
    | .error e =>
      if cfg.hasClaude then
        claudeStage "claude" ["DeepSeek error: " ++ e] run.2.1 run.2.2 ["deepseek"]
      else
        (.error ("DeepSeek API failed and no fallback available: " ++ e), run.2.1, run.2.2,
          ["deepseek"])
  else claudeStage provider [] cache [] []

end UnifiedLLMClient

/-- C1: with both providers configured, preferred provider `deepseek`,
and every attempt of both providers failing, the unified client invokes
DeepSeek a SECOND time after Claude fails (the membership guard
`'deepseek' not in [err.startswith('DeepSeek') for err in errors]`
compares a string against booleans and is therefore always true), and the
error it finally raises is the raw error of that second DeepSeek call —
not an aggregated `All LLM providers failed` message referencing both
providers.  This exhibits the code bug against the claim (and against the
source's own comment `Fall back to DeepSeek if we haven't tried it
yet`). -/
theorem C1_fallback_retries_deepseek_twice :
    (UnifiedLLMClient.generate_response ⟨true, true⟩ "s" "u" none (mkRat 7 10) false false none
        "deepseek" (fun _ => .fail "deepseek down") (fun _ => .net "claude down")
        (fun _ => none)).2.2.2
      = ["deepseek", "claude", "deepseek"]
    ∧ (UnifiedLLMClient.generate_response ⟨true, true⟩ "s" "u" none (mkRat 7 10) false false none
        "deepseek" (fun _ => .fail "deepseek down") (fun _ => .net "claude down")
        (fun _ => none)).1
      = .error "deepseek down"
    ∧ "deepseek down".startsWith "All LLM providers failed" = false := by
  refine ⟨rfl, rfl, by decide⟩

namespace LLMManager

/-- Manager configuration derived from settings at `LLMManager.__init__`:
provider availability, the default provider (already lower-cased, line
37), and the `USE_OPTIMIZED_DEEPSEEK` flag. -/
structure MgrCfg where
  hasDeepseek : Bool
  hasClaude : Bool
  defaultProvider : String
  useOptimizedDeepseek : Bool
deriving DecidableEq

/-- The routing-relevant arguments of one `LLMManager.generate_response`
request. -/
structure GenReq where
  providerArg : Option String
  forceCache : Bool
  useCache : Bool
  temperature : Rat
  contextId : Option String
deriving DecidableEq

/-- The execution path `LLMManager.generate_response` selects: the
optimized DeepSeek client, or the unified fallback client invoked with
the given provider string. -/
inductive Route where
  | optimizedDeepseek
  | unified (provider : String)
deriving DecidableEq

/-- `provider = provider.lower() if provider else self.default_provider`
(llm_manager.py line 186): the override when given and truthy, else the
configured default. -/
def effectiveProvider (cfg : MgrCfg) (req : GenReq) : String :=
  match req.providerArg with
  | some p => if p = "" then cfg.defaultProvider else pyLower p
  | none => cfg.defaultProvider

/-- The routing decision of `LLMManager.generate_response`
(llm_manager.py lines 185-239), transliterated: the `should_use_deepseek`
if/elif chain over the EFFECTIVE provider, then the
`use_optimized_deepseek` gate; when no rule matches (or optimization is
disabled) the unified client is called with the provider variable as it
stands. -/
def route (cfg : MgrCfg) (req : GenReq) : Route :=
  let provider := effectiveProvider cfg req
  let sel : Bool × String :=
    if provider = "deepseek" ∧ cfg.hasDeepseek then (true, provider)
    else if req.forceCache ∧ req.useCache ∧ cfg.hasDeepseek then (true, "deepseek")
    else if req.temperature < mkRat 1 5 ∧ req.useCache ∧ cfg.hasDeepseek ∧ ¬provider = "claude" then
      (true, "deepseek")
    else if pyTruthy req.contextId ∧ cfg.hasDeepseek ∧ ¬provider = "claude" then
      (true, "deepseek")
    else (false, provider)
  if sel.1 ∧ cfg.useOptimizedDeepseek then .optimizedDeepseek else .unified sel.2

/-- The routing table as the CLAIM words it (for refinement comparison,
not from the source): rule 1 fires on the provider OVERRIDE equalling
`'deepseek'`, rules 3-4 exclude an EXPLICIT `'claude'` override, and the
fallthrough delegates to the unified client with the CONFIGURED DEFAULT
provider. -/
def route_claimed (cfg : MgrCfg) (req : GenReq) : Route :=
  let overrideLower : Option String := req.providerArg.map pyLower
  let dsPath : Route :=
    if cfg.useOptimizedDeepseek then .optimizedDeepseek else .unified "deepseek"
  if overrideLower = some "deepseek" ∧ cfg.hasDeepseek then dsPath
  else if req.forceCache ∧ req.useCache ∧ cfg.hasDeepseek then dsPath
  else if req.temperature < mkRat 1 5 ∧ req.useCache ∧ cfg.hasDeepseek
      ∧ ¬overrideLower = some "claude" then dsPath
  else if pyTruthy req.contextId ∧ cfg.hasDeepseek ∧ ¬overrideLower = some "claude" then dsPath
  else .unified cfg.defaultProvider

/-- The claim's routing table amended to match the source: every rule is
evaluated over the EFFECTIVE provider (the lower-cased override when
given and non-empty, else the configured default), and the fallthrough
delegates to the unified client with that effective provider. -/
def route_amended (cfg : MgrCfg) (req : GenReq) : Route :=
  let provider := effectiveProvider cfg req
  let dsPath : Route :=
    if cfg.useOptimizedDeepseek then .optimizedDeepseek else .unified "deepseek"
  if provider = "deepseek" ∧ cfg.hasDeepseek then
    if cfg.useOptimizedDeepseek then .optimizedDeepseek else .unified provider
  else if req.forceCache ∧ req.useCache ∧ cfg.hasDeepseek then dsPath
  else if req.temperature < mkRat 1 5 ∧ req.useCache ∧ cfg.hasDeepseek ∧ ¬provider = "claude" then
    dsPath
  else if pyTruthy req.contextId ∧ cfg.hasDeepseek ∧ ¬provider = "claude" then dsPath
  else .unified provider

end LLMManager

/-- C6 counterexample: with no provider override, `deepseek` as the
configured default, DeepSeek configured and optimization enabled, a plain
high-temperature request with no context matches none of the claim's
rules — the claim predicts delegation to the unified client with the
default provider — yet the source's rule 1 fires on the EFFECTIVE
provider and routes to the optimized DeepSeek client. -/
theorem C6_routing_counterexample :
    LLMManager.route ⟨true, true, "deepseek", true⟩ ⟨none, false, true, mkRat 7 10, none⟩
      = .optimizedDeepseek
    ∧ LLMManager.route_claimed ⟨true, true, "deepseek", true⟩ ⟨none, false, true, mkRat 7 10, none⟩
      = .unified "deepseek"
    ∧ LLMManager.route ⟨true, true, "deepseek", true⟩ ⟨none, false, true, mkRat 7 10, none⟩
      ≠ LLMManager.route_claimed ⟨true, true, "deepseek", true⟩ ⟨none, false, true, mkRat 7 10, none⟩ := by
  refine ⟨by decide, by decide, by decide⟩

/-- C6 (amended): `LLMManager.generate_response` selects the path by the
first matching rule over the EFFECTIVE provider (override if given, else
configured default), re-evaluated independently per request: (1)
effective provider `deepseek` and DeepSeek configured; (2) `force_cache`
and `use_cache` and DeepSeek configured; (3) temperature < 0.2 and
`use_cache` and DeepSeek configured and effective provider not `claude`;
(4) context id present and DeepSeek configured and effective provider not
`claude` — each routing to DeepSeek (the optimized client when
optimization is enabled, else the unified client with provider
`deepseek`); otherwise it delegates to the unified client with the
effective provider. -/
theorem C6_routing_amended (cfg : LLMManager.MgrCfg) (req : LLMManager.GenReq) :
    LLMManager.route cfg req = LLMManager.route_amended cfg req := by
  by_cases h1 : LLMManager.effectiveProvider cfg req = "deepseek" <;>
  by_cases hd : cfg.hasDeepseek = true <;>
  by_cases ho : cfg.useOptimizedDeepseek = true <;>
  by_cases hfc : req.forceCache = true <;>
  by_cases huc : req.useCache = true <;>
  by_cases ht : req.temperature < mkRat 1 5 <;>
  by_cases hcl : LLMManager.effectiveProvider cfg req = "claude" <;>
  by_cases hctx : pyTruthy req.contextId = true <;>
  simp [LLMManager.route, LLMManager.route_amended, h1, hd, ho, hfc, huc, ht, hcl, hctx]

/-- One chat message `{role, content}`. -/
structure Msg where
  role : String
  content : String
deriving DecidableEq

/-- The on-disk state touched by the optimized client: the response cache
(pre-hash key material → stored response) and the context store (context
id → stored message list).  The source keys each context file by the MD5
hex digest of the context id (`_get_context_key`), so distinct ids are
distinct files; the model identifies contexts by their id. -/
structure Store where
  cache : CacheMap
  contexts : String → Option (List Msg)

/-- Python `"|".join(parts)`. -/
def joinPipe : List String → String
  | [] => ""
  | [s] => s
  | s :: rest => s ++ "|" ++ joinPipe rest

namespace OptimizedDeepSeekClient

def DEFAULT_MODEL : String := "deepseek-chat"

/-- The read-path cache key material of
`OptimizedDeepSeekClient.generate_response` (optimized_deepseek.py lines
146-151): `"|".join([system_prompt, user_prompt, model] + ([context_id]
if context_id else []))`. -/
def advKeyRead (sp up model : String) (contextId : Option String) : String :=
  joinPipe ([sp, up, model] ++ if pyTruthy contextId then [contextId.getD ""] else [])

/-- The write-path cache key material (lines 242-247): `"|".join([s, u,
m])` followed by `+= f"|{context_id}"` when a context id is present. -/
def advKeyWrite (sp up model : String) (contextId : Option String) : String :=
  let base := joinPipe [sp, up, model]
  if pyTruthy contextId then base ++ "|" ++ contextId.getD "" else base

/-- `load_context` (lines 84-105): the empty list when the context file
is missing or unreadable. -/
def load_context (st : Store) (contextId : String) : List Msg :=
  (st.contexts contextId).getD []

/-- `save_context` (lines 67-82): overwrite the context file with the
given message list (write failures are swallowed; the model takes the
successful path, which is the one the claims describe). -/
def save_context (st : Store) (contextId : String) (messages : List Msg) : Store :=
  { st with contexts := fun c => if c = contextId then some messages else st.contexts c }

/-- The retry loop of `OptimizedDeepSeekClient.generate_response` (lines
192-261), identical backoff to the base DeepSeek client.  On a
non-streaming success the conversation context (when a context id was
given) is appended with the assistant turn and saved, then the local
cache is written when `writeCache` holds, then the response is returned.
A STREAMING success returns the assembled stream directly (lines
208-210) — before the context-update and cache-write code. -/
def retryLoop (beh : Nat → DSOut) (stream writeCache : Bool) (writeKey : String)
    (contextId : Option String) (messages : List Msg) (st : Store)
    (attempt delay left : Nat) : Except String Resp × Store × List Ev :=
  match left with
  | 0 => (.error "Failed to get response from DeepSeek API after multiple attempts", st, [])
  | left + 1 =>
    match beh attempt with
    | .fail e =>
      if left = 0 then (.error e, st, [.httpCall "deepseek"])
      else
        let rest := retryLoop beh stream writeCache writeKey contextId messages st
          (attempt + 1) (delay * 2) left
        (rest.1, rest.2.1, .httpCall "deepseek" :: .sleep delay :: rest.2.2)
    | .ok body =>
      if stream then (.ok body, st, [.httpCall "deepseek"])
      else
        let afterCtx : Store × List Ev :=
          match contextId with
          | some cid =>
            if cid ≠ "" then
              (save_context st cid (messages ++ [⟨"assistant", body.content⟩]), [.ctxSave cid])
            else (st, [])
          | none => (st, [])
        let afterCache : Store × List Ev :=
          if writeCache then
            ({ afterCtx.1 with cache := cacheStore afterCtx.1.cache writeKey body },
              [.cacheSet writeKey])
          else (afterCtx.1, [])
        (.ok body, afterCache.1, .httpCall "deepseek" :: (afterCtx.2 ++ afterCache.2))

/-- `OptimizedDeepSeekClient.generate_response` (optimized_deepseek.py
lines 107-261) on the production path: default the model, consult the
local cache when `use_cache and temperature < 0.2` under the
context-aware key, build the message list (prior context — seeded with
the system prompt when empty — plus the new user turn; without a context
id, plain system+user), then run the retry loop. -/
def generate_response (sp up : String) (modelArg : Option String) (temperature : Rat)
    (structured useCache stream : Bool) (contextId : Option String)
    (beh : Nat → DSOut) (st : Store) : Except String Resp × Store × List Ev :=
  let model := pyOrStr modelArg DEFAULT_MODEL
  let messages : List Msg :=
    if pyTruthy contextId then
      let loaded := load_context st (contextId.getD "")
      let base := if loaded = [] then [⟨"system", sp⟩] else loaded
      base ++ [⟨"user", up⟩]
    else [⟨"system", sp⟩, ⟨"user", up⟩]
  let writeKey := advKeyWrite sp up model contextId
  if useCache ∧ temperature < mkRat 1 5 then
    let readKey := advKeyRead sp up model contextId
    match st.cache readKey with
    | some r => (.ok r, st, [.cacheGet readKey])
    | none =>
      let run := retryLoop beh stream true writeKey contextId messages st 0 2 3
      (run.1, run.2.1, .cacheGet readKey :: run.2.2)
  else retryLoop beh stream false writeKey contextId messages st 0 2 3

end OptimizedDeepSeekClient

namespace LLMManager

/-- `LLMManager.generate_response` (llm_manager.py lines 152-239): route
per `route`, then either call the optimized DeepSeek client (passing
`use_cache`, `stream` and `context_id` but NOT `force_cache`, which only
influenced routing) or delegate to the unified client with the selected
provider (no context id, no streaming). -/
def generate_response (cfg : MgrCfg) (sp up : String) (modelArg : Option String)
    (temperature : Rat) (structured useCache : Bool) (providerArg : Option String)
    (contextId : Option String) (stream forceCache : Bool) (unifiedPreferred : String)
    (dBeh : Nat → DSOut) (cBeh : Nat → ClOut) (st : Store) :
    Except String Resp × Store × List Ev :=
  match route cfg ⟨providerArg, forceCache, useCache, temperature, contextId⟩ with
  | .optimizedDeepseek =>
    OptimizedDeepSeekClient.generate_response sp up modelArg temperature structured useCache
      stream contextId dBeh st
  | .unified p =>
    let run := UnifiedLLMClient.generate_response ⟨cfg.hasDeepseek, cfg.hasClaude⟩ sp up modelArg
      temperature structured useCache (some p) unifiedPreferred dBeh cBeh st.cache
    (run.1, { st with cache := run.2.1 }, run.2.2.1)

end LLMManager

/-- Behaviour of the optimized client's retry loop on the conversation
context, for a non-streaming call with a non-empty context id: a
successful run stores exactly `messages ++ [assistant reply]` under the
id (before returning), and a failed run leaves the whole store
untouched. -/
theorem odsRetryLoop_context (beh : Nat → DSOut) (wc : Bool) (wk cid : String)
    (messages : List Msg) (st : Store) (hcid : cid ≠ "") :
    (∀ r, (OptimizedDeepSeekClient.retryLoop beh false wc wk (some cid) messages st 0 2 3).1
        = .ok r →
      (OptimizedDeepSeekClient.retryLoop beh false wc wk (some cid) messages st 0 2 3).2.1.contexts
        = fun c => if c = cid then some (messages ++ [⟨"assistant", r.content⟩])
            else st.contexts c)
    ∧ (∀ e, (OptimizedDeepSeekClient.retryLoop beh false wc wk (some cid) messages st 0 2 3).1
        = .error e →
      (OptimizedDeepSeekClient.retryLoop beh false wc wk (some cid) messages st 0 2 3).2.1
        = st) := by
  cases h0 : beh 0 <;> cases h1 : beh 1 <;> cases h2 : beh 2 <;>
    constructor <;> intro x hx <;>
      cases wc <;>
        simp [OptimizedDeepSeekClient.retryLoop, OptimizedDeepSeekClient.save_context,
          h0, h1, h2, hcid] at hx ⊢ <;>
          simp [hx]

/-- C7 counterexample (first turn of a conversation): with no previously
stored context, a successful context-bearing call persists THREE
messages — the system prompt is injected in front — so the persisted
context does not equal "previously stored messages (none) with the user
turn and the assistant reply appended" (which would be two messages). -/
theorem C7_context_first_turn_counterexample :
    (OptimizedDeepSeekClient.generate_response "sys" "hello" none (mkRat 7 10) false false false
        (some "conv1") (fun _ => .ok ⟨"reply", "deepseek-chat", none⟩)
        ⟨fun _ => none, fun _ => none⟩).2.1.contexts "conv1"
      = some [⟨"system", "sys"⟩, ⟨"user", "hello"⟩, ⟨"assistant", "reply"⟩]
    ∧ ([⟨"system", "sys"⟩, ⟨"user", "hello"⟩, ⟨"assistant", "reply"⟩] : List Msg)
      ≠ ([] : List Msg) ++ [⟨"user", "hello"⟩, ⟨"assistant", "reply"⟩] := by
  refine ⟨rfl, by decide⟩

/-- C7 (amended): on a non-streaming context-bearing call that is not
served from the local response cache, a successful turn persists — before
the call returns — exactly the previously stored messages (or, when none
are stored, a single system-prompt message) with the new user turn and
the assistant's reply appended; a failed turn leaves the context store
unchanged. -/
theorem C7_context_persistence_amended (sp up : String) (modelArg : Option String)
    (temperature : Rat) (structured useCache : Bool) (cid : String) (beh : Nat → DSOut)
    (st : Store) (hcid : cid ≠ "")
    (hmiss : st.cache (OptimizedDeepSeekClient.advKeyRead sp up
        (pyOrStr modelArg OptimizedDeepSeekClient.DEFAULT_MODEL) (some cid)) = none) :
    (∀ r, (OptimizedDeepSeekClient.generate_response sp up modelArg temperature structured
        useCache false (some cid) beh st).1 = .ok r →
      (OptimizedDeepSeekClient.generate_response sp up modelArg temperature structured
        useCache false (some cid) beh st).2.1.contexts cid
        = some ((if OptimizedDeepSeekClient.load_context st cid = [] then [⟨"system", sp⟩]
            else OptimizedDeepSeekClient.load_context st cid)
          ++ [⟨"user", up⟩, ⟨"assistant", r.content⟩]))
    ∧ (∀ e, (OptimizedDeepSeekClient.generate_response sp up modelArg temperature structured
        useCache false (some cid) beh st).1 = .error e →
      (OptimizedDeepSeekClient.generate_response sp up modelArg temperature structured
        useCache false (some cid) beh st).2.1.contexts = st.contexts) := by
  have hpt : pyTruthy (some cid) = true := by simp [pyTruthy, hcid]
  by_cases hc : useCache ∧ temperature < mkRat 1 5
  all_goals constructor
  all_goals intro x hx
  · simp only [OptimizedDeepSeekClient.generate_response, if_pos hc, hpt, hmiss, if_true,
      Option.getD_some] at hx ⊢
    rw [(odsRetryLoop_context beh _ _ cid _ st hcid).1 x hx]
    simp [List.append_assoc]
  · simp only [OptimizedDeepSeekClient.generate_response, if_pos hc, hpt, hmiss, if_true,
      Option.getD_some] at hx ⊢
    rw [(odsRetryLoop_context beh _ _ cid _ st hcid).2 x hx]
  · simp only [OptimizedDeepSeekClient.generate_response, if_neg hc, hpt, if_true,
      Option.getD_some] at hx ⊢
    rw [(odsRetryLoop_context beh _ _ cid _ st hcid).1 x hx]
    simp [List.append_assoc]
  · simp only [OptimizedDeepSeekClient.generate_response, if_neg hc, hpt, if_true,
      Option.getD_some] at hx ⊢
    rw [(odsRetryLoop_context beh _ _ cid _ st hcid).2 x hx]

/-- Witness for the amended C7 at a concrete input: a stored three-message
context is extended by the user turn and the assistant reply. -/
theorem C7_context_persistence_amended_witness :
    (OptimizedDeepSeekClient.generate_response "s" "u" none (mkRat 7 10) false false false
        (some "conv") (fun _ => .ok ⟨"reply", "deepseek-chat", none⟩)
        ⟨fun _ => none, fun c => if c = "conv"
          then some [⟨"system", "s0"⟩, ⟨"user", "q"⟩, ⟨"assistant", "a"⟩] else none⟩).2.1.contexts
        "conv"
      = some [⟨"system", "s0"⟩, ⟨"user", "q"⟩, ⟨"assistant", "a"⟩, ⟨"user", "u"⟩,
          ⟨"assistant", "reply"⟩] := by
  have h := (C7_context_persistence_amended "s" "u" none (mkRat 7 10) false false "conv"
      (fun _ => .ok ⟨"reply", "deepseek-chat", none⟩)
      ⟨fun _ => none, fun c => if c = "conv"
        then some [⟨"system", "s0"⟩, ⟨"user", "q"⟩, ⟨"assistant", "a"⟩] else none⟩
      (by decide) rfl).1 ⟨"reply", "deepseek-chat", none⟩ rfl
  simpa [OptimizedDeepSeekClient.load_context] using h

/-- C2: at the manager level, with `temperature = 1` (≥ 0.2) and
`use_cache = True`:
* with `force_cache = True` the request is routed to the optimized
  DeepSeek client, but that client still gates caching on
  `temperature < 0.2` (the manager never forwards `force_cache`), so —
  contrary to the claim and to the parameter's own docstring (`force_cache:
  Whether to force cache use regardless of temperature`) — NO cache read
  or write occurs;
* with `force_cache = False` the request goes through the unified client
  and likewise performs no cache read or write (this half of the claim
  holds). -/
theorem C2_force_cache_no_cache_io :
    (LLMManager.generate_response ⟨true, true, "claude", true⟩ "s" "u" none 1 false true
        none none false true "claude" (fun _ => .ok ⟨"r", "deepseek-chat", none⟩)
        (fun _ => .reply 200 "" ⟨"rc", "claude-3-sonnet-20240229", none⟩)
        ⟨fun _ => none, fun _ => none⟩).2.2.filter Ev.isCacheEv = []
    ∧ (LLMManager.generate_response ⟨true, true, "claude", true⟩ "s" "u" none 1 false true
        none none false true "claude" (fun _ => .ok ⟨"r", "deepseek-chat", none⟩)
        (fun _ => .reply 200 "" ⟨"rc", "claude-3-sonnet-20240229", none⟩)
        ⟨fun _ => none, fun _ => none⟩).1 = .ok ⟨"r", "deepseek-chat", none⟩
    ∧ (LLMManager.generate_response ⟨true, true, "claude", true⟩ "s" "u" none 1 false true
        none none false false "claude" (fun _ => .ok ⟨"r", "deepseek-chat", none⟩)
        (fun _ => .reply 200 "" ⟨"rc", "claude-3-sonnet-20240229", none⟩)
        ⟨fun _ => none, fun _ => none⟩).2.2.filter Ev.isCacheEv = []
    ∧ (LLMManager.generate_response ⟨true, true, "claude", true⟩ "s" "u" none 1 false true
        none none false false "claude" (fun _ => .ok ⟨"r", "deepseek-chat", none⟩)
        (fun _ => .reply 200 "" ⟨"rc", "claude-3-sonnet-20240229", none⟩)
        ⟨fun _ => none, fun _ => none⟩).1 = .ok ⟨"rc", "claude-3-sonnet-20240229", none⟩ := by
  refine ⟨rfl, rfl, rfl, rfl⟩

/-- String concatenation cancels on the left (via the underlying
character lists). -/
theorem strAppend_left_cancel {a b1 b2 : String} (h : a ++ b1 = a ++ b2) : b1 = b2 := by
  have hd : a.data ++ b1.data = a.data ++ b2.data := by
    have := congrArg String.data h
    simpa [String.data_append] using this
  exact String.ext (List.append_cancel_left hd)

/-- The two cache-key constructions of the optimized client coincide, and
with a context id present the key is the plain pipe-join of the four
components. -/
theorem advKey_context_eq (s u m c : String) (hc : c ≠ "") :
    OptimizedDeepSeekClient.advKeyRead s u m (some c)
      = (s ++ "|") ++ ((u ++ "|") ++ ((m ++ "|") ++ c))
    ∧ OptimizedDeepSeekClient.advKeyWrite s u m (some c)
      = OptimizedDeepSeekClient.advKeyRead s u m (some c) := by
  constructor
  · simp [OptimizedDeepSeekClient.advKeyRead, joinPipe, pyTruthy, hc]
  · apply String.ext
    simp [OptimizedDeepSeekClient.advKeyRead, OptimizedDeepSeekClient.advKeyWrite, joinPipe,
      pyTruthy, hc, String.data_append]

/-- C8: two requests with identical system prompt, user prompt and model
but different (non-empty) context ids derive different cache-key
material, hence different file names under any collision-free digest; and
a cache write under one conversation's key never creates an entry under
the other conversation's key — no false cache hit across conversations.
-/
theorem C8_cache_key_context_sensitivity (s u m c1 c2 : String) (digest : String → String)
    (r : Resp) (st : CacheMap) (h12 : c1 ≠ c2) (h1 : c1 ≠ "") (h2 : c2 ≠ "")
    (hdig : Function.Injective digest) :
    OptimizedDeepSeekClient.advKeyRead s u m (some c1)
      ≠ OptimizedDeepSeekClient.advKeyRead s u m (some c2)
    ∧ digest (OptimizedDeepSeekClient.advKeyRead s u m (some c1))
      ≠ digest (OptimizedDeepSeekClient.advKeyRead s u m (some c2))
    ∧ cacheStore st (OptimizedDeepSeekClient.advKeyWrite s u m (some c1)) r
        (OptimizedDeepSeekClient.advKeyRead s u m (some c2))
      = st (OptimizedDeepSeekClient.advKeyRead s u m (some c2)) := by
  have hne : OptimizedDeepSeekClient.advKeyRead s u m (some c1)
      ≠ OptimizedDeepSeekClient.advKeyRead s u m (some c2) := by
    intro h
    rw [(advKey_context_eq s u m c1 h1).1, (advKey_context_eq s u m c2 h2).1] at h
    exact h12 (strAppend_left_cancel (strAppend_left_cancel (strAppend_left_cancel h)))
  refine ⟨hne, fun h => hne (hdig h), ?_⟩
  rw [(advKey_context_eq s u m c1 h1).2]
  simp [cacheStore, (Ne.symm hne)]

/-- Witness for C8 at concrete inputs, with the identity as (injective)
digest. -/
theorem C8_cache_key_context_sensitivity_witness :
    OptimizedDeepSeekClient.advKeyRead "s" "u" "m" (some "convA")
      ≠ OptimizedDeepSeekClient.advKeyRead "s" "u" "m" (some "convB")
    ∧ id (OptimizedDeepSeekClient.advKeyRead "s" "u" "m" (some "convA"))
      ≠ id (OptimizedDeepSeekClient.advKeyRead "s" "u" "m" (some "convB"))
    ∧ cacheStore (fun _ => none)
        (OptimizedDeepSeekClient.advKeyWrite "s" "u" "m" (some "convA"))
        ⟨"r", "deepseek-chat", none⟩
        (OptimizedDeepSeekClient.advKeyRead "s" "u" "m" (some "convB"))
      = (fun _ => none : CacheMap) (OptimizedDeepSeekClient.advKeyRead "s" "u" "m" (some "convB")) :=
  C8_cache_key_context_sensitivity "s" "u" "m" "convA" "convB" id ⟨"r", "deepseek-chat", none⟩
    (fun _ => none) (by decide) (by decide) (by decide) Function.injective_id

/-- A review as consumed by `format_property_data`: the rating (a Python
float, modelled as `Rat`), the comment and the formatted date. -/
structure ReviewRec where
  rating : Rat
  comment : String
  date : String
deriving DecidableEq

/-- A Python dict value as occurring in the per-review dict. -/
inductive PyV where
  | num (q : Rat)
  | pstr (s : String)
deriving DecidableEq

/-- Python dict insertion: a repeated key overwrites the existing entry
in place, a fresh key is appended. -/
def pyDictSet (d : List (String × PyV)) (k : String) (v : PyV) : List (String × PyV) :=
  if d.any (fun kv => kv.1 = k) then d.map (fun kv => if kv.1 = k then (k, v) else kv)
  else d ++ [(k, v)]

/-- Python dict lookup of a numeric value (`r["rating"]`; 0 when absent —
the review dicts below always carry a rating). -/
def pyDictGetNum (d : List (String × PyV)) (k : String) : Rat :=
  match d.find? (fun kv => kv.1 = k) with
  | some (_, .num q) => q
  | _ => 0

/-- The per-review dict literal of `format_property_data` (llm_client.py
lines 619-624) — with the `"rating"` key ASSIGNED TWICE — evaluated left
to right under Python dict-literal semantics (the second assignment
overwrites the first; it does not add a second entry). -/
def reviewDict (r : ReviewRec) : List (String × PyV) :=
  pyDictSet (pyDictSet (pyDictSet (pyDictSet [] "rating" (.num r.rating))
    "rating" (.num r.rating)) "comment" (.pstr r.comment)) "date" (.pstr r.date)

/-- The review-derived fields of `format_property_data` (llm_client.py
lines 604-650): `review_count = len(review_data)` and `average_rating =
float(sum(r["rating"] for r in review_data) / len(review_data)) if
review_data else None`. -/
structure PropertyReviewSummary where
  review_count : Nat
  average_rating : Option Rat
deriving DecidableEq

/-- `format_property_data` (llm_client.py lines 604-650) restricted to
its review-aggregation output. -/
def format_property_data (reviews : List ReviewRec) : PropertyReviewSummary :=
  let review_data := reviews.map reviewDict
  { review_count := review_data.length
    average_rating :=
      match review_data with
      | [] => none
      | _ => some ((review_data.map (fun r => pyDictGetNum r "rating")).sum
          / (review_data.length : Rat)) }

/-- C10: `format_property_data` sets `average_rating` to the arithmetic
mean of the reviews' ratings with each distinct review contributing
exactly one rating value — the duplicated `"rating"` assignment in the
per-review dict construction overwrites rather than double-counts — and
to `None` when the property has no reviews. -/
theorem C10_average_rating_each_review_once (reviews : List ReviewRec) :
    (format_property_data []).average_rating = none
    ∧ (format_property_data reviews).average_rating
      = (match reviews with
        | [] => none
        | _ => some ((reviews.map (fun r => r.rating)).sum / (reviews.length : Rat)))
    ∧ (∀ r : ReviewRec, pyDictGetNum (reviewDict r) "rating" = r.rating)
    ∧ (∀ r : ReviewRec,
        (reviewDict r).filter (fun kv => kv.1 = "rating") = [("rating", .num r.rating)]) := by
  have hfun : (fun r => pyDictGetNum (reviewDict r) "rating") = fun r : ReviewRec => r.rating :=
    funext fun r => rfl
  refine ⟨rfl, ?_, fun r => rfl, fun r => rfl⟩
  cases reviews with
  | nil => rfl
  | cons a l =>
    simp [format_property_data, List.map_map, Function.comp_def, hfun]
    rfl

/-- A JSON value as produced by `json.loads` (numbers restricted to
integers, which covers the inputs the claims exercise; strings are
character lists). -/
inductive Json where
  | jnull
  | jbool (b : Bool)
  | jnum (n : Int)
  | jstr (s : List Char)
  | jarr (elems : List Json)
  | jobj (fields : List (List Char × Json))

/-- Classification of `json.JSONDecodeError`s: `fix_json_format` branches
on whether the message contains `Expecting property name enclosed in
double quotes`; every other failure (wrong delimiter, trailing `Extra
data`, constructs outside the modelled subset) is `.other`. -/
inductive JsonErr where
  | expectingPropertyName
  | other
deriving DecidableEq

/-- JSON whitespace. -/
def isJsonWs (c : Char) : Bool := c = ' ' ∨ c = '\t' ∨ c = '\n' ∨ c = '\r'

def skipWs : List Char → List Char
  | [] => []
  | c :: cs => if isJsonWs c then skipWs cs else c :: cs

/-- Match a literal character sequence at the head, returning the rest on
success. -/
def dropLit : List Char → List Char → Option (List Char)
  | [], s => some s
  | _ :: _, [] => none
  | c :: cs, x :: xs => if x = c then dropLit cs xs else none

/-- JSON string escapes (`\uXXXX` is not needed by the inputs proved here
and is reported as a parse failure). -/
def escChar (c : Char) : Option Char :=
  if c = quoteChar then some quoteChar
  else if c = Char.ofNat 92 then some (Char.ofNat 92)
  else if c = '/' then some '/'
  else if c = 'n' then some '\n'
  else if c = 't' then some '\t'
  else if c = 'r' then some '\r'
  else if c = 'b' then some (Char.ofNat 8)
  else if c = 'f' then some (Char.ofNat 12)
  else none

/-- Scan a JSON string body (the opening quote already consumed),
returning the decoded characters and the rest of the input. -/
def parseJStr : List Char → Except JsonErr (List Char × List Char)
  | [] => .error .other
  | c :: rest =>
    if c = quoteChar then .ok ([], rest)
    else if c = Char.ofNat 92 then
      match rest with
      | [] => .error .other
      | e :: rest2 =>
        match escChar e with
        | none => .error .other
        | some ec =>
          match parseJStr rest2 with
          | .error err => .error err
          | .ok (s, r) => .ok (ec :: s, r)
    else
      match parseJStr rest with
      | .error err => .error err
      | .ok (s, r) => .ok (c :: s, r)

def digitsToNat (acc : Nat) : List Char → Nat
  | [] => acc
  | c :: cs => digitsToNat (acc * 10 + (c.toNat - 48)) cs

/-- An integer numeral (a `.`/exponent after the digits is outside the
modelled subset and reported as a failure). -/
def parseNum (s : List Char) : Except JsonErr (Json × List Char) :=
  let neg := s.head? = some '-'
  let s1 := if s.head? = some '-' then s.drop 1 else s
  let digits := s1.takeWhile Char.isDigit
  let rest := s1.dropWhile Char.isDigit
  if digits = [] then .error .other
  else if rest.head? = some '.' ∨ rest.head? = some 'e' ∨ rest.head? = some 'E' then
    .error .other
  else
    let n : Int := digitsToNat 0 digits
    .ok (.jnum (if neg then -n else n), rest)

mutual

/-- Recursive-descent model of the `json.loads` value scanner, fuelled
(the top-level entry supplies ample fuel).  At an object-member position,
a character other than `"` (or `}` for an empty object) yields the
`Expecting property name enclosed in double quotes` error class, exactly
where CPython's scanner reports it. -/
def parseVal : Nat → List Char → Except JsonErr (Json × List Char)
  | 0, _ => .error .other
  | fuel + 1, s =>
    match skipWs s with
    | [] => .error .other
    | c :: rest =>
      if c = braceLChar then
        match skipWs rest with
        | [] => .error .expectingPropertyName
        | c2 :: r3 =>
          if c2 = braceRChar then .ok (.jobj [], r3)
          else if c2 = quoteChar then
            match parseObjRest fuel [] r3 with
            | .error e => .error e
            | .ok (fs, r4) => .ok (.jobj fs, r4)
          else .error .expectingPropertyName
      else if c = '[' then
        match skipWs rest with
        | [] => .error .other
        | c2 :: r3 =>
          if c2 = ']' then .ok (.jarr [], r3)
          else
            match parseArrRest fuel [] (c2 :: r3) with
            | .error e => .error e
            | .ok (vs, r4) => .ok (.jarr vs, r4)
      else if c = quoteChar then
        match parseJStr rest with
        | .error e => .error e
        | .ok (str, r) => .ok (.jstr str, r)
      else
        match dropLit "true".data (c :: rest) with
        | some r => .ok (.jbool true, r)
        | none =>
          match dropLit "false".data (c :: rest) with
          | some r => .ok (.jbool false, r)
          | none =>
            match dropLit "null".data (c :: rest) with
            | some r => .ok (.jnull, r)
            | none =>
              if c.isDigit ∨ c = '-' then parseNum (c :: rest)
              else .error .other

/-- Object members; the input begins immediately after the opening quote
of a key. -/
def parseObjRest : Nat → List (List Char × Json) → List Char →
    Except JsonErr (List (List Char × Json) × List Char)
  | 0, _, _ => .error .other
  | fuel + 1, acc, s =>
    match parseJStr s with
    | .error e => .error e
    | .ok (key, r1) =>
      match skipWs r1 with
      | c :: r2 =>
        if c = ':' then
          match parseVal fuel r2 with
          | .error e => .error e
          | .ok (v, r3) =>
            match skipWs r3 with
            | c2 :: r4 =>
              if c2 = braceRChar then .ok (acc ++ [(key, v)], r4)
              else if c2 = ',' then
                match skipWs r4 with
                | c3 :: r5 =>
                  if c3 = quoteChar then parseObjRest fuel (acc ++ [(key, v)]) r5
                  else .error .expectingPropertyName
                | [] => .error .expectingPropertyName
              else .error .other
            | [] => .error .other
        else .error .other
      | [] => .error .other

/-- Array elements; the input begins at the first element. -/
def parseArrRest : Nat → List Json → List Char → Except JsonErr (List Json × List Char)
  | 0, _, _ => .error .other
  | fuel + 1, acc, s =>
    match parseVal fuel s with
    | .error e => .error e
    | .ok (v, r1) =>
      match skipWs r1 with
      | c :: r2 =>
        if c = ']' then .ok (acc ++ [v], r2)
        else if c = ',' then parseArrRest fuel (acc ++ [v]) r2
        else .error .other
      | [] => .error .other

end

/-- `json.loads`, for the JSON subset the claims exercise; trailing
non-whitespace is the `Extra data` failure (class `.other`). -/
def json_loads (s : List Char) : Except JsonErr Json :=
  match parseVal (4 * s.length + 8) s with
  | .error e => .error e
  | .ok (v, rest) => if skipWs rest = [] then .ok v else .error .other

/-- Python `str.replace('\r\n', '\n')` (left to right,
non-overlapping). -/
def replaceCRLF : List Char → List Char
  | '\r' :: '\n' :: rest => '\n' :: replaceCRLF rest
  | c :: rest => c :: replaceCRLF rest
  | [] => []

/-- Python `str.replace('\r', '\n')`. -/
def replaceCR (s : List Char) : List Char := s.map (fun c => if c = '\r' then '\n' else c)

/-- Python `str.replace("'", '"')`. -/
def squoteToDquote (s : List Char) : List Char :=
  s.map (fun c => if c = aposChar then quoteChar else c)

/-- The regex class `\s` of Python's `re` module. -/
def isPyWs (c : Char) : Bool :=
  c = ' ' ∨ c = '\t' ∨ c = '\n' ∨ c = '\r' ∨ c = Char.ofNat 11 ∨ c = Char.ofNat 12

/-- The regex class `[a-zA-Z0-9_]`. -/
def isIdentChar (c : Char) : Bool := c.isAlphanum ∨ c = '_'

/-- Python `str.strip()` (whitespace, both ends); `stripCharsBy` is the
general `str.strip(chars)`. -/
def stripCharsBy (p : Char → Bool) (s : List Char) : List Char :=
  ((s.dropWhile p).reverse.dropWhile p).reverse

def pyStrip (s : List Char) : List Char := stripCharsBy isPyWs s

/-- One attempted match of the property-name-quoting pattern
`<trigger>(\s*?)([a-zA-Z0-9_]+)(\s*?):` of `fix_json_format` step 4
(llm_client.py lines 829-838), at the position right after the trigger
character.  Because `\s` and identifier characters are disjoint, the lazy
groups match exactly the whitespace runs.  Returns the replacement text
`\1"\2"\3:` and the remaining input. -/
def tryKeyMatch (s : List Char) : Option (List Char × List Char) :=
  let ws1 := s.takeWhile isPyWs
  let r1 := s.dropWhile isPyWs
  let ident := r1.takeWhile isIdentChar
  let r2 := r1.dropWhile isIdentChar
  if ident = [] then none
  else
    let ws2 := r2.takeWhile isPyWs
    match r2.dropWhile isPyWs with
    | c :: rest =>
      if c = ':' then
        some (ws1 ++ [quoteChar] ++ ident ++ [quoteChar] ++ ws2 ++ [':'], rest)
      else none
    | [] => none

/-- `re.sub` with the above pattern: scan left to right, replacing
non-overlapping matches and resuming after each replacement.  Fuelled by
the input length (every step consumes at least one character). -/
def quoteKeysAfterFuel (trigger : Char) : Nat → List Char → List Char
  | 0, s => s
  | _ + 1, [] => []
  | fuel + 1, c :: rest =>
    if c = trigger then
      match tryKeyMatch rest with
      | some (rep, after) => c :: (rep ++ quoteKeysAfterFuel trigger fuel after)
      | none => c :: quoteKeysAfterFuel trigger fuel rest
    else c :: quoteKeysAfterFuel trigger fuel rest

def quoteKeysAfter (trigger : Char) (s : List Char) : List Char :=
  quoteKeysAfterFuel trigger s.length s

/-- The value alternatives of the pair-extraction pattern of
`fix_json_format` step 5 (llm_client.py line 860):
`(?:"([^"]*)"|\{([^}]*)\}|\[([^\]]*)\]|([^,}]*))`, tried in order. -/
inductive PairVal where
  | vStr (s : List Char)
  | vObj (s : List Char)
  | vArr (s : List Char)
  | vOther (s : List Char)
deriving DecidableEq

/-- `[^X]*X`: split at the first occurrence of `stop` (`none` when absent,
in which case that regex alternative fails). -/
def splitOnChar (stop : Char) : List Char → Option (List Char × List Char)
  | [] => none
  | c :: rest =>
    if c = stop then some ([], rest)
    else
      match splitOnChar stop rest with
      | some (a, b) => some (c :: a, b)
      | none => none

/-- Try the four value alternatives in order (the last one, `([^,}]*)`,
always matches, possibly emptily). -/
def tryPairValue (s : List Char) : PairVal × List Char :=
  let alt4 : PairVal × List Char :=
    (.vOther (s.takeWhile (fun c => ¬(c = ',' ∨ c = braceRChar))),
      s.dropWhile (fun c => ¬(c = ',' ∨ c = braceRChar)))
  match s with
  | [] => alt4
  | c :: rest =>
    if c = quoteChar then
      match splitOnChar quoteChar rest with
      | some (inner, after) => (.vStr inner, after)
      | none => alt4
    else if c = braceLChar then
      match splitOnChar braceRChar rest with
      | some (inner, after) => (.vObj inner, after)
      | none => alt4
    else if c = '[' then
      match splitOnChar ']' rest with
      | some (inner, after) => (.vArr inner, after)
      | none => alt4
    else alt4

/-- The name alternatives `(?:"([^"]+)"|([a-zA-Z0-9_]+))` of step 5's
pair pattern. -/
def tryPairName (s : List Char) : Option (List Char × List Char) :=
  match s with
  | [] => none
  | c :: rest =>
    if c = quoteChar then
      match splitOnChar quoteChar rest with
      | some (inner, after) => if inner = [] then none else some (inner, after)
      | none => none
    else
      let ident := s.takeWhile isIdentChar
      if ident = [] then none else some (ident, s.dropWhile isIdentChar)

/-- One attempted match of the full pair pattern at the position right
after a `,`/`{` trigger. -/
def tryPairAfterTrigger (s : List Char) : Option (List Char × PairVal × List Char) :=
  let r1 := s.dropWhile isPyWs
  match tryPairName r1 with
  | none => none
  | some (nm, r2) =>
    match r2.dropWhile isPyWs with
    | c :: r3 =>
      if c = ':' then
        let r4 := r3.dropWhile isPyWs
        let v := tryPairValue r4
        some (nm, v.1, v.2)
      else none
    | [] => none

/-- `re.finditer` with the pair pattern: non-overlapping matches, left to
right; after a failed attempt the scan advances one character. -/
def findPairs : Nat → List Char → List (List Char × PairVal)
  | 0, _ => []
  | _ + 1, [] => []
  | fuel + 1, c :: rest =>
    if c = ',' ∨ c = braceLChar then
      match tryPairAfterTrigger rest with
      | some (nm, v, after) => (nm, v) :: findPairs fuel after
      | none => findPairs fuel rest
    else findPairs fuel rest

/-- The value formatting of step 5, mirroring Python truthiness: an EMPTY
captured string/object/array value makes every `if match.group(k)` test
falsy, so the code falls through to `match.group(6).strip()` with
`group(6) = None` and raises `AttributeError` — modelled by `none`, which
aborts step 5 (the exception is caught) and falls through to the
last-resort fixes. -/
def renderPairValue : PairVal → Option (List Char)
  | .vStr v => if v = [] then none else some (quoteChar :: v ++ [quoteChar])
  | .vObj v => if v = [] then none else some (braceLChar :: v ++ [braceRChar])
  | .vArr v => if v = [] then none else some ('[' :: v ++ [']'])
  | .vOther v => some (pyStrip v)

/-- Python `sep.join(parts)` for a character-list separator. -/
def joinWithSep (sep : List Char) : List (List Char) → List Char
  | [] => []
  | [x] => x
  | x :: xs => x ++ sep ++ joinWithSep sep xs

/-- Step 5 of `fix_json_format` (llm_client.py lines 850-891): extract
every pair match, format each as `"name": value`, and rebuild
`"{\n" + ",\n".join(pairs) + "\n}"`.  `none` models the in-loop
`AttributeError` (see `renderPairValue`). -/
def step5Reconstruct (s : List Char) : Option (List Char) :=
  let pairs := findPairs s.length s
  match pairs.mapM (fun nv => (renderPairValue nv.2).map
      (fun rv => quoteChar :: (nv.1 ++ [quoteChar, ':', ' '] ++ rv))) with
  | none => none
  | some rendered =>
    some (braceLChar :: '\n' :: (joinWithSep [',', '\n'] rendered ++ ['\n', braceRChar]))

/-- Python `str.replace(target, repl)` for a single-character target. -/
def replaceCharBy (target : Char) (repl : List Char) : List Char → List Char
  | [] => []
  | c :: rest => (if c = target then repl else [c]) ++ replaceCharBy target repl rest

/-- Python `content.replace('""', '"')` (left to right,
non-overlapping). -/
def collapseDoubleQuotes : List Char → List Char
  | c1 :: c2 :: rest =>
    if c1 = quoteChar ∧ c2 = quoteChar then quoteChar :: collapseDoubleQuotes rest
    else c1 :: collapseDoubleQuotes (c2 :: rest)
  | s => s

/-- The last-resort fixes of `fix_json_format` (llm_client.py lines
893-905), applied when every parse attempt failed and the content does
not start with `{"`. -/
def lastResortFixes (s : List Char) : List Char :=
  if s.head? = some braceLChar ∧ (s.drop 1).head? = some quoteChar then s
  else
    collapseDoubleQuotes
      (replaceCharBy ',' [',', quoteChar]
        (replaceCharBy ':' [quoteChar, ':']
          (replaceCharBy braceLChar [braceLChar, quoteChar] s)))

/-- `fix_json_format` (llm_client.py lines 803-905): ensure a leading
`{`, normalize line endings, turn single quotes into double quotes; parse;
on an `Expecting property name` failure apply the quoting re-subs (first
the `{`-pattern, then the `,`-pattern) and re-parse; otherwise (or if
that still fails) attempt the full step-5 reconstruction; finally fall
back to the last-resort replacements on the step-4-rewritten content. -/
def fix_json_format (content0 : List Char) : List Char :=
  let c1 := if content0.head? = some braceLChar then content0 else braceLChar :: content0
  let c2 := replaceCR (replaceCRLF c1)
  let c3 := squoteToDquote c2
  match json_loads c3 with
  | .ok _ => c3
  | .error e =>
    let c4 := if e = .expectingPropertyName
      then quoteKeysAfter ',' (quoteKeysAfter braceLChar c3) else c3
    if e = .expectingPropertyName ∧ (json_loads c4).isOk then c4
    else
      match step5Reconstruct c4 with
      | some fixedContent =>
        if (json_loads fixedContent).isOk then fixedContent else lastResortFixes c4
      | none => lastResortFixes c4

/-- `re.findall(r'"([^"]*)"', text)`: all non-overlapping quoted
substrings. -/
def findAllQuoted : Nat → List Char → List (List Char)
  | 0, _ => []
  | _ + 1, [] => []
  | fuel + 1, c :: rest =>
    if c = quoteChar then
      match splitOnChar quoteChar rest with
      | some (inner, after) => inner :: findAllQuoted fuel after
      | none => []
    else findAllQuoted fuel rest

/-- Python `text.split(",")` (empty pieces preserved). -/
def splitOnCommas : List Char → List (List Char)
  | [] => [[]]
  | c :: rest =>
    if c = ',' then [] :: splitOnCommas rest
    else
      match splitOnCommas rest with
      | [] => [[c]]
      | piece :: more => (c :: piece) :: more

/-- `parse_string_array` (llm_client.py lines 707-720): strip, collect
quoted strings; if none, split on commas, keep the pieces with non-blank
strip, each stripped of whitespace, then `"`, then `'`. -/
def parse_string_array (text : List Char) : List (List Char) :=
  let t := pyStrip text
  let items := findAllQuoted t.length t
  if items ≠ [] then items
  else
    (splitOnCommas t).filterMap (fun item =>
      if pyStrip item = [] then none
      else some (stripCharsBy (fun c => c = aposChar)
        (stripCharsBy (fun c => c = quoteChar) (pyStrip item))))

/-- One attempted match of `"?NAME"?\s*:\s*\[(.*?)\]` (with `re.DOTALL`)
at a given position: optional quote, the literal name, optional quote,
whitespace, colon, whitespace, `[`, then the lazy capture up to the first
`]`. -/
def tryFieldArrayAt (name s : List Char) : Option (List Char) :=
  let afterName :=
    match (if s.head? = some quoteChar then dropLit name (s.drop 1) else none) with
    | some r => some r
    | none => dropLit name s
  match afterName with
  | none => none
  | some r1 =>
    let r2 := if r1.head? = some quoteChar then r1.drop 1 else r1
    match r2.dropWhile isPyWs with
    | c :: r3 =>
      if c = ':' then
        match r3.dropWhile isPyWs with
        | c2 :: r4 =>
          if c2 = '[' then (splitOnChar ']' r4).map (fun x => x.1)
          else none
        | [] => none
      else none
    | [] => none

/-- `re.search` with the array-field pattern: leftmost match wins. -/
def searchFieldArray (name : List Char) : Nat → List Char → Option (List Char)
  | 0, _ => none
  | _ + 1, [] => none
  | fuel + 1, c :: rest =>
    match tryFieldArrayAt name (c :: rest) with
    | some g => some g
    | none => searchFieldArray name fuel rest

/-- One attempted match of `"?NAME"?\s*:\s*"([^"]+)"` at a given
position. -/
def tryFieldStrAt (name s : List Char) : Option (List Char) :=
  let afterName :=
    match (if s.head? = some quoteChar then dropLit name (s.drop 1) else none) with
    | some r => some r
    | none => dropLit name s
  match afterName with
  | none => none
  | some r1 =>
    let r2 := if r1.head? = some quoteChar then r1.drop 1 else r1
    match r2.dropWhile isPyWs with
    | c :: r3 =>
      if c = ':' then
        match r3.dropWhile isPyWs with
        | c2 :: r4 =>
          if c2 = quoteChar then
            match splitOnChar quoteChar r4 with
            | some (inner, _) => if inner = [] then none else some inner
            | none => none
          else none
        | [] => none
      else none
    | [] => none

/-- `re.search` with the string-field pattern: leftmost match wins. -/
def searchFieldStr (name : List Char) : Nat → List Char → Option (List Char)
  | 0, _ => none
  | _ + 1, [] => none
  | fuel + 1, c :: rest =>
    match tryFieldStrAt name (c :: rest) with
    | some g => some g
    | none => searchFieldStr name fuel rest

/-- The five-section property-persona shape built by
`reconstruct_json_from_claude` (llm_client.py lines 727-749). -/
structure PersonaIdealGuests where
  demographics : List (List Char)
  traveler_types : List (List Char)
deriving DecidableEq

structure PersonaUseCases where
  primary : List (List Char)
  secondary : List (List Char)
deriving DecidableEq

structure PersonaUniqueAttributes where
  key_selling_points : List (List Char)
  stand_out_amenities : List (List Char)
deriving DecidableEq

structure PersonaAtmosphere where
  overall_vibe : List Char
  descriptors : List (List Char)
deriving DecidableEq

structure PersonaMarketPosition where
  property_class : List Char
  comparable_to : List (List Char)
deriving DecidableEq

structure PropertyPersona where
  ideal_guests : PersonaIdealGuests
  use_cases : PersonaUseCases
  unique_attributes : PersonaUniqueAttributes
  atmosphere : PersonaAtmosphere
  market_position : PersonaMarketPosition
deriving DecidableEq

/-- `reconstruct_json_from_claude` (llm_client.py lines 722-801): start
from the base structure (array fields empty, `overall_vibe =
"comfortable"`, `property_class = "mid-range"`), then fill each field
independently from its own regex search over the raw content. -/
def reconstruct_json_from_claude (content : List Char) : PropertyPersona :=
  let arr := fun (nm : String) =>
    match searchFieldArray nm.data content.length content with
    | some g => parse_string_array g
    | none => []
  let strv := fun (nm : String) (dflt : String) =>
    match searchFieldStr nm.data content.length content with
    | some v => v
    | none => dflt.data
  { ideal_guests :=
      { demographics := arr "demographics", traveler_types := arr "traveler_types" }
    use_cases := { primary := arr "primary", secondary := arr "secondary" }
    unique_attributes :=
      { key_selling_points := arr "key_selling_points"
        stand_out_amenities := arr "stand_out_amenities" }
    atmosphere :=
      { overall_vibe := strv "overall_vibe" "comfortable", descriptors := arr "descriptors" }
    market_position :=
      { property_class := strv "property_class" "mid-range"
        comparable_to := arr "comparable_to" } }

/-- C9: (1) on the raw text `{"a": 1, b: "x"}` the direct parse fails
exactly with the `Expecting property name` error class, `fix_json_format`
returns precisely the output of the property-name-quoting re-subs (the
level-3 repair), and that output parses to the object
`{a: 1, b: "x"}`; (2) on free text containing
`"demographics": ["A","B"]` inside non-JSON prose,
`reconstruct_json_from_claude` returns `["A","B"]` for
`ideal_guests.demographics` and the documented defaults everywhere else
(absent array fields empty, `overall_vibe = "comfortable"`,
`property_class = "mid-range"`). -/
theorem C9_repair_pipeline_levels :
    json_loads "\x7b\"a\": 1, b: \"x\"\x7d".data = .error .expectingPropertyName
    ∧ fix_json_format "\x7b\"a\": 1, b: \"x\"\x7d".data
      = quoteKeysAfter ',' (quoteKeysAfter braceLChar "\x7b\"a\": 1, b: \"x\"\x7d".data)
    ∧ fix_json_format "\x7b\"a\": 1, b: \"x\"\x7d".data
      = "\x7b\"a\": 1, \"b\": \"x\"\x7d".data
    ∧ json_loads (fix_json_format "\x7b\"a\": 1, b: \"x\"\x7d".data)
      = .ok (.jobj [("a".data, .jnum 1), ("b".data, .jstr "x".data)])
    ∧ reconstruct_json_from_claude
        "Here is the persona you asked for. \"demographics\": [\"A\",\"B\"] and that is all.".data
      = { ideal_guests := { demographics := ["A".data, "B".data], traveler_types := [] }
          use_cases := { primary := [], secondary := [] }
          unique_attributes := { key_selling_points := [], stand_out_amenities := [] }
          atmosphere := { overall_vibe := "comfortable".data, descriptors := [] }
          market_position := { property_class := "mid-range".data, comparable_to := [] } } :=
  ⟨rfl, rfl, rfl, rfl, rfl⟩

end Rentify
